import Mathlib

set_option maxRecDepth 100000

/-!
Shallow embedding of `src/Classes/MLCBridge.cpp`, the C++ bridge that wraps
the MLC-LLM JSON FFI engine for a Flutter host.

Byte strings (`std::string`) are modelled as `List Char`; `std::string::find`
and `substr` are modelled positionally; the raw function-pointer token
callback is `Option Unit` (null or non-null); outcomes of the external
`chat_completion` engine call are an explicit `ChatOutcome` parameter, so the
bridge's own control flow is a total function of its inputs.
-/

/-- Characters of a Lean string literal, used to write C++ string constants. -/
def chars (s : String) : List Char := s.data

/-- Model of `std::string::find(pat)` starting the scan at index `i`:
first index `≥ i` at which `pat` occurs, `none` for `npos`. -/
def findSubAux (pat : List Char) : List Char → Nat → Option Nat
  | [], i => if pat = [] then some i else none
  | c :: rest, i =>
    if pat.isPrefixOf (c :: rest) then some i else findSubAux pat rest (i + 1)

/-- Model of `std::string::find(pat)` (scan from position 0). -/
def findSub (pat : List Char) (s : List Char) : Option Nat := findSubAux pat s 0

/-- Model of `std::string::find(c, start)`: first index `≥ start` holding the
character `c`, `none` for `npos`. -/
def findCharFrom (c : Char) (s : List Char) (start : Nat) : Option Nat :=
  match findSub [c] (s.drop start) with
  | none => none
  | some j => some (start + j)

/-- Model of `std::string::substr(start, len)` (in-range use only, as in the
bridge where `start ≤ end < size`). -/
def substr (s : List Char) (start len : Nat) : List Char :=
  (s.drop start).take len

/-- The literal pattern `"content":"` searched for by
`MLCEngineWrapper::processStreamResponse` (11 characters). -/
def contentPat : List Char := chars "\"content\":\""

/-- Embedding of `MLCEngineWrapper::processStreamResponse`
(src/Classes/MLCBridge.cpp:95-114). The stored token callback is passed
explicitly; the returned list holds the arguments of the `token_callback_`
invocations the handler performs, in order. -/
def processStreamResponse (token_callback_ : Option Unit) (response_json : List Char) :
    List (List Char) :=
  match token_callback_ with
  | none => []
  | some _ =>
    match findSub contentPat response_json with
    | none => []
    | some content_pos =>
      let start := content_pos + 11
      match findCharFrom '"' response_json start with
      | none => []
      | some e =>
        let content := substr response_json start (e - start)
        if content ≠ [] then [content] else []

/-- The first `content` value the scraping loop of `processStreamResponse`
extracts (before the callback/emptiness checks), `none` when the pattern or
the closing quote is absent. -/
def extractFirstContent (response_json : List Char) : Option (List Char) :=
  match findSub contentPat response_json with
  | none => none
  | some content_pos =>
    let start := content_pos + 11
    match findCharFrom '"' response_json start with
    | none => none
    | some e => some (substr response_json start (e - start))

/-- Engine wrapper state (src/Classes/MLCBridge.cpp:16-28): the model path,
the stored host token sink (null or non-null function pointer), and the
`is_initialized_` flag. The TVM module and bound `PackedFunc`s are external
state whose behaviour enters through `CtorEnv` and `ChatOutcome`. -/
structure MLCEngineWrapper where
  model_path_ : List Char
  token_callback_ : Option Unit
  is_initialized_ : Bool
deriving DecidableEq

/-- Outcomes of the external calls made by the constructor
(src/Classes/MLCBridge.cpp:30-81): whether the registry holds
`mlc.json_ffi.CreateJSONFFIEngine`, and whether `init_background_engine`
and `reload` return without throwing. -/
structure CtorEnv where
  factoryPresent : Bool
  initBgOk : Bool
  reloadOk : Bool
deriving DecidableEq

/-- Embedding of the `MLCEngineWrapper` constructor
(src/Classes/MLCBridge.cpp:30-81): every failure of a construction step is
caught and leaves `is_initialized_ = false`; success of all steps sets it. -/
def MLCEngineWrapper.construct (model_path : List Char) (env : CtorEnv) : MLCEngineWrapper :=
  { model_path_ := model_path
    token_callback_ := none
    is_initialized_ := env.factoryPresent && env.initBgOk && env.reloadOk }

/-- Outcome of the external `chat_completion_(request_json, request_id)` call
(src/Classes/MLCBridge.cpp:148): returned `true`, returned `false`
(engine-reported failure, diagnostic from `get_last_error_`), or threw. -/
inductive ChatOutcome where
  | ok
  | rejected (err : List Char)
  | threw (err : List Char)
deriving DecidableEq

/-- Decimal digit character, as produced by `std::to_string`. -/
def dchar (d : Nat) : Char :=
  match d with
  | 0 => '0' | 1 => '1' | 2 => '2' | 3 => '3' | 4 => '4'
  | 5 => '5' | 6 => '6' | 7 => '7' | 8 => '8' | 9 => '9'
  | _ => '*'

/-- Fuel-driven accumulator loop producing the decimal digits of `n`
(most significant first) in front of `acc`. -/
def natToDecAux : Nat → Nat → List Char → List Char
  | 0, _, acc => acc
  | fuel + 1, n, acc =>
    if n < 10 then dchar n :: acc
    else natToDecAux fuel (n / 10) (dchar (n % 10) :: acc)

/-- Embedding of `std::to_string` on a non-negative integer: the decimal
digit string of `n`. -/
def natToDec (n : Nat) : List Char := natToDecAux (n + 1) n []

/-- Embedding of `std::to_string` on `int` values (`max_tokens`): optional
minus sign followed by the decimal digits. -/
def intToDec (i : Int) : List Char :=
  if i < 0 then '-' :: natToDec i.natAbs else natToDec i.natAbs

/-- Embedding of the request-id construction (src/Classes/MLCBridge.cpp:142-143):
`"req_" + std::to_string(ms)` where `ms` is the wall-clock millisecond reading
taken during the `generate` call. -/
def requestId (ms : Nat) : List Char := chars "req_" ++ natToDec ms

/-- First constant piece of the request JSON raw literal
(src/Classes/MLCBridge.cpp:128-132), up to the opening quote of `content`. -/
def reqPartA : List Char :=
  chars "\x7b\n            \"messages\": [\n                \x7b\n                    \"role\": \"user\", \n                    \"content\": \""

/-- Second constant piece (src/Classes/MLCBridge.cpp:132-136), from the quote
closing the prompt to the space after `"max_tokens": `. -/
def reqPartB : List Char :=
  chars "\"\n                \x7d\n            ],\n            \"model\": \"TinyLlama-1.1B-MLC\",\n            \"max_tokens\": "

/-- Third constant piece (src/Classes/MLCBridge.cpp:136-137). -/
def reqPartC : List Char := chars ",\n            \"temperature\": "

/-- Fourth constant piece (src/Classes/MLCBridge.cpp:137-139). -/
def reqPartD : List Char := chars ",\n            \"stream\": true\n        \x7d"

/-- Embedding of the `request_json` concatenation in `MLCEngineWrapper::generate`
(src/Classes/MLCBridge.cpp:128-139). The prompt and the rendered numbers are
interpolated verbatim, with no escaping or validation. `tempStr` stands for
`std::to_string(temperature)`, the decimal rendering of the float argument. -/
def buildRequestJson (prompt : List Char) (max_tokens : Int) (tempStr : List Char) : List Char :=
  reqPartA ++ prompt ++ reqPartB ++ intToDec max_tokens ++ reqPartC ++ tempStr ++ reqPartD

/-- Observable result of one `MLCEngineWrapper::generate` call: the returned
code, the token callback stored in the wrapper afterwards, the
(request_json, request_id) pair handed to `chat_completion_` (if reached),
and whether `get_last_error_` was invoked. -/
structure GenResult where
  ret : Int
  token_callback_ : Option Unit
  submitted : Option (List Char × List Char)
  gotLastError : Bool
deriving DecidableEq

/-- Return code of `generate` as a function of the `chat_completion` outcome
alone (src/Classes/MLCBridge.cpp:148-162). -/
def chatRet : ChatOutcome → Int
  | ChatOutcome.ok => 0
  | ChatOutcome.rejected _ => -2
  | ChatOutcome.threw _ => -2

/-- Embedding of `MLCEngineWrapper::generate` (src/Classes/MLCBridge.cpp:116-163):
return −1 when uninitialized (before storing the callback); otherwise store the
callback, build the request JSON and request id, call `chat_completion_`, and
map its outcome to 0 / −2, querying `get_last_error_` exactly on an
engine-reported (non-throwing) failure. -/
def MLCEngineWrapper.generate (w : MLCEngineWrapper) (prompt : List Char) (max_tokens : Int)
    (tempStr : List Char) (callback : Option Unit) (ms : Nat) (outcome : ChatOutcome) :
    GenResult :=
  if w.is_initialized_ = false then
    { ret := -1, token_callback_ := w.token_callback_, submitted := none, gotLastError := false }
  else
    let request_json := buildRequestJson prompt max_tokens tempStr
    let request_id := requestId ms
    match outcome with
    | ChatOutcome.ok =>
      { ret := 0, token_callback_ := callback,
        submitted := some (request_json, request_id), gotLastError := false }
    | ChatOutcome.rejected _ =>
      { ret := -2, token_callback_ := callback,
        submitted := some (request_json, request_id), gotLastError := true }
    | ChatOutcome.threw _ =>
      { ret := -2, token_callback_ := callback,
        submitted := some (request_json, request_id), gotLastError := false }

/-- Embedding of the C ABI `mlc_llm_create_engine`
(src/Classes/MLCBridge.cpp:172-185): construct a wrapper; if it did not reach
`is_initialized_`, delete it and return null. -/
def mlc_llm_create_engine (model_path : List Char) (env : CtorEnv) : Option MLCEngineWrapper :=
  let engine := MLCEngineWrapper.construct model_path env
  if engine.is_initialized_ then some engine else none

/-- Embedding of the C ABI `mlc_llm_generate` (src/Classes/MLCBridge.cpp:187-200):
−1 when the handle or the prompt is null, otherwise delegate to the wrapper. -/
def mlc_llm_generate (engine : Option MLCEngineWrapper) (prompt : Option (List Char))
    (max_tokens : Int) (tempStr : List Char) (callback : Option Unit) (ms : Nat)
    (outcome : ChatOutcome) : GenResult :=
  match engine, prompt with
  | none, _ =>
    { ret := -1, token_callback_ := none, submitted := none, gotLastError := false }
  | some w, none =>
    { ret := -1, token_callback_ := w.token_callback_, submitted := none, gotLastError := false }
  | some w, some p => w.generate p max_tokens tempStr callback ms outcome

/-- Observable effects of one `mlc_llm_destroy_engine` call
(src/Classes/MLCBridge.cpp:202-207 with the destructor at 83-93): whether a
wrapper was deleted, whether `exit_background_loop` was requested, and the
token-sink invocations performed (the teardown path performs none). -/
structure DestroyEffects where
  destroyedEngine : Bool
  exitLoopRequested : Bool
  sinkCalls : List (List Char)
deriving DecidableEq

/-- Embedding of the C ABI `mlc_llm_destroy_engine`
(src/Classes/MLCBridge.cpp:202-207): null handle does nothing; a non-null
handle is deleted, the destructor requesting `exit_background_loop` exactly
when the wrapper was initialized. -/
def mlc_llm_destroy_engine (engine : Option MLCEngineWrapper) : DestroyEffects :=
  match engine with
  | none => { destroyedEngine := false, exitLoopRequested := false, sinkCalls := [] }
  | some w => { destroyedEngine := true, exitLoopRequested := w.is_initialized_, sinkCalls := [] }

/-- Value of a hexadecimal digit character, `none` for non-hex characters. -/
def hexVal (c : Char) : Option Nat :=
  if 48 ≤ c.toNat ∧ c.toNat ≤ 57 then some (c.toNat - 48)
  else if 97 ≤ c.toNat ∧ c.toNat ≤ 102 then some (c.toNat - 87)
  else if 65 ≤ c.toNat ∧ c.toNat ≤ 70 then some (c.toNat - 55)
  else none

/-- Fuel-driven loop for `specJsonUnescape`; the fuel strictly exceeds the
input length, and every step consumes at least one character. -/
def specJsonUnescapeAux : Nat → List Char → List Char
  | 0, s => s
  | fuel + 1, s =>
    match s with
    | [] => []
    | '\\' :: '"' :: rest => '"' :: specJsonUnescapeAux fuel rest
    | '\\' :: '\\' :: rest => '\\' :: specJsonUnescapeAux fuel rest
    | '\\' :: '/' :: rest => '/' :: specJsonUnescapeAux fuel rest
    | '\\' :: 'b' :: rest => '\x08' :: specJsonUnescapeAux fuel rest
    | '\\' :: 'f' :: rest => '\x0c' :: specJsonUnescapeAux fuel rest
    | '\\' :: 'n' :: rest => '\n' :: specJsonUnescapeAux fuel rest
    | '\\' :: 'r' :: rest => '\r' :: specJsonUnescapeAux fuel rest
    | '\\' :: 't' :: rest => '\t' :: specJsonUnescapeAux fuel rest
    | '\\' :: 'u' :: h1 :: h2 :: h3 :: h4 :: rest =>
      match hexVal h1, hexVal h2, hexVal h3, hexVal h4 with
      | some a, some b, some c, some d =>
        Char.ofNat (((a * 16 + b) * 16 + c) * 16 + d) :: specJsonUnescapeAux fuel rest
      | _, _, _, _ => 'u' :: specJsonUnescapeAux fuel (h1 :: h2 :: h3 :: h4 :: rest)
    | '\\' :: c :: rest => c :: specJsonUnescapeAux fuel rest
    | c :: rest => c :: specJsonUnescapeAux fuel rest

/-- Modelled from the spec: JSON string unescaping of the standard escapes
`\"`, `\\`, `\/`, `\b`, `\f`, `\n`, `\r`, `\t`, `\uXXXX` (spec §4.2); the
bridge itself contains no unescaping code. Characters outside escapes pass
through unchanged. -/
def specJsonUnescape (s : List Char) : List Char := specJsonUnescapeAux (s.length + 1) s

/-- Modelled from the spec: JSON values, used to state well-formedness and
decodability of the request JSON (spec §8 round-trip laws); the bridge
contains no JSON parser. Numbers keep their raw character form. -/
inductive Json where
  | null
  | bool (b : Bool)
  | num (raw : List Char)
  | str (s : List Char)
  | arr (items : List Json)
  | obj (members : List (List Char × Json))

/-- The object-brace characters, kept out of string literals. -/
def lbrace : Char := Char.ofNat 123

/-- Closing object brace. -/
def rbrace : Char := Char.ofNat 125

/-- JSON whitespace. -/
def isJsonWs (c : Char) : Bool := c = ' ' || c = '\n' || c = '\r' || c = '\t'

/-- Drop leading JSON whitespace. -/
def skipWs : List Char → List Char
  | [] => []
  | c :: rest => if isJsonWs c then skipWs rest else c :: rest

/-- Parse the body of a JSON string after its opening quote, decoding the
standard escapes; fails on control characters, bad escapes, or a missing
closing quote. Returns the decoded characters and the remaining input. -/
def parseStringBody : List Char → Option (List Char × List Char)
  | [] => none
  | '"' :: rest => some ([], rest)
  | '\\' :: e :: rest =>
    match e with
    | '"' => (parseStringBody rest).map (fun p => ('"' :: p.1, p.2))
    | '\\' => (parseStringBody rest).map (fun p => ('\\' :: p.1, p.2))
    | '/' => (parseStringBody rest).map (fun p => ('/' :: p.1, p.2))
    | 'b' => (parseStringBody rest).map (fun p => ('\x08' :: p.1, p.2))
    | 'f' => (parseStringBody rest).map (fun p => ('\x0c' :: p.1, p.2))
    | 'n' => (parseStringBody rest).map (fun p => ('\n' :: p.1, p.2))
    | 'r' => (parseStringBody rest).map (fun p => ('\r' :: p.1, p.2))
    | 't' => (parseStringBody rest).map (fun p => ('\t' :: p.1, p.2))
    | 'u' =>
      match rest with
      | h1 :: h2 :: h3 :: h4 :: rest2 =>
        match hexVal h1, hexVal h2, hexVal h3, hexVal h4 with
        | some a, some b, some c, some d =>
          (parseStringBody rest2).map
            (fun p => (Char.ofNat (((a * 16 + b) * 16 + c) * 16 + d) :: p.1, p.2))
        | _, _, _, _ => none
      | _ => none
    | _ => none
  | c :: rest =>
    if c.toNat < 32 then none
    else (parseStringBody rest).map (fun p => (c :: p.1, p.2))

/-- Take a maximal run of decimal digits. -/
def takeDigits : List Char → List Char × List Char
  | [] => ([], [])
  | c :: rest =>
    if c.isDigit then
      let p := takeDigits rest
      (c :: p.1, p.2)
    else ([], c :: rest)

/-- Parse a JSON number (RFC 8259 grammar: optional minus, integer part
without leading zeros, optional fraction, optional exponent), returning its
raw characters and the remaining input. -/
def parseNumber (s : List Char) : Option (List Char × List Char) :=
  let signed : List Char × List Char :=
    match s with
    | '-' :: r => (['-'], r)
    | r => ([], r)
  match signed.2 with
  | [] => none
  | c :: r =>
    if ¬ c.isDigit then none
    else
      let intPart : Option (List Char × List Char) :=
        if c = '0' then
          match r with
          | d :: _ => if d.isDigit then none else some (['0'], r)
          | [] => some (['0'], [])
        else
          let p := takeDigits r
          some (c :: p.1, p.2)
      match intPart with
      | none => none
      | some (ip, r2) =>
        let fracPart : Option (List Char × List Char) :=
          match r2 with
          | '.' :: r3 =>
            let p := takeDigits r3
            if p.1 = [] then none else some ('.' :: p.1, p.2)
          | _ => some ([], r2)
        match fracPart with
        | none => none
        | some (fp, r4) =>
          let expPart : Option (List Char × List Char) :=
            match r4 with
            | e :: r5 =>
              if e = 'e' ∨ e = 'E' then
                let sgn : List Char × List Char :=
                  match r5 with
                  | '+' :: r6 => (['+'], r6)
                  | '-' :: r6 => (['-'], r6)
                  | r6 => ([], r6)
                let p := takeDigits sgn.2
                if p.1 = [] then none else some (e :: sgn.1 ++ p.1, p.2)
              else some ([], r4)
            | [] => some ([], [])
          match expPart with
          | none => none
          | some (ep, r7) => some (signed.1 ++ ip ++ fp ++ ep, r7)

mutual

/-- Fuel-driven recursive-descent parser for a JSON value. -/
def parseValue : Nat → List Char → Option (Json × List Char)
  | 0, _ => none
  | fuel + 1, s =>
    match skipWs s with
    | [] => none
    | 't' :: 'r' :: 'u' :: 'e' :: rest => some (Json.bool true, rest)
    | 'f' :: 'a' :: 'l' :: 's' :: 'e' :: rest => some (Json.bool false, rest)
    | 'n' :: 'u' :: 'l' :: 'l' :: rest => some (Json.null, rest)
    | '"' :: rest =>
      match parseStringBody rest with
      | none => none
      | some (cs, r) => some (Json.str cs, r)
    | '[' :: rest =>
      match skipWs rest with
      | ']' :: r => some (Json.arr [], r)
      | r =>
        match parseArrayItems fuel r with
        | none => none
        | some (items, r2) => some (Json.arr items, r2)
    | c :: rest =>
      if c = lbrace then
        match skipWs rest with
        | [] => none
        | c2 :: r2 =>
          if c2 = rbrace then some (Json.obj [], r2)
          else
            match parseObjMembers fuel (c2 :: r2) with
            | none => none
            | some (ms, r3) => some (Json.obj ms, r3)
      else if c = '-' ∨ c.isDigit then
        match parseNumber (c :: rest) with
        | none => none
        | some (raw, r) => some (Json.num raw, r)
      else none

/-- Parse one or more comma-separated array items up to the closing `]`. -/
def parseArrayItems : Nat → List Char → Option (List Json × List Char)
  | 0, _ => none
  | fuel + 1, s =>
    match parseValue fuel s with
    | none => none
    | some (j, r) =>
      match skipWs r with
      | ',' :: r2 =>
        match parseArrayItems fuel r2 with
        | none => none
        | some (items, r3) => some (j :: items, r3)
      | ']' :: r2 => some ([j], r2)
      | _ => none

/-- Parse one or more comma-separated object members up to the closing brace. -/
def parseObjMembers : Nat → List Char → Option (List (List Char × Json) × List Char)
  | 0, _ => none
  | fuel + 1, s =>
    match skipWs s with
    | '"' :: rest =>
      match parseStringBody rest with
      | none => none
      | some (key, r) =>
        match skipWs r with
        | ':' :: r2 =>
          match parseValue fuel r2 with
          | none => none
          | some (j, r3) =>
            match skipWs r3 with
            | ',' :: r4 =>
              match parseObjMembers fuel r4 with
              | none => none
              | some (ms, r5) => some ((key, j) :: ms, r5)
            | c :: r4 => if c = rbrace then some ([(key, j)], r4) else none
            | [] => none
        | _ => none
    | _ => none

end

/-- Modelled from the spec: a document is well-formed JSON when one value
parses and only whitespace remains (spec §8, "well-formed JSON document").
The fuel `4 * length + 4` strictly bounds the number of parser steps, each of
which consumes input. -/
def parseJsonDoc (s : List Char) : Option Json :=
  match parseValue (4 * s.length + 4) s with
  | none => none
  | some (j, rest) => if skipWs rest = [] then some j else none

/-- Look up the first member with the given key in an object member list. -/
def findField : List (List Char × Json) → List Char → Option Json
  | [], _ => none
  | (k, v) :: rest, key => if k = key then some v else findField rest key

/-- Field access on an object value. -/
def Json.getField : Json → List Char → Option Json
  | Json.obj ms, key => findField ms key
  | _, _ => none

/-- The decoded `messages[0].content` of a parsed request document. -/
def firstMessageContent (j : Json) : Option (List Char) :=
  match j.getField (chars "messages") with
  | some (Json.arr (m :: _)) =>
    match m.getField (chars "content") with
    | some (Json.str s) => some s
    | _ => none
  | _ => none

/-- The claim C2 premise on prompts: no unescaped control characters. -/
def noControlChars (p : List Char) : Prop := ∀ c ∈ p, 32 ≤ c.toNat

instance (p : List Char) : Decidable (noControlChars p) := by
  unfold noControlChars; infer_instance

/-- Number of positions of `s` at which `pat` occurs, used to count the
content keys of a stream fragment. -/
def countSub (pat : List Char) : List Char → Nat
  | [] => 0
  | c :: rest => (if pat.isPrefixOf (c :: rest) then 1 else 0) + countSub pat rest

section DecimalLemmas

lemma dchar_lt_inj {d e : Nat} (hd : d < 10) (he : e < 10) (h : dchar d = dchar e) : d = e := by
  have H : ∀ a b : Fin 10, dchar a.val = dchar b.val → a = b := by decide
  have := H ⟨d, hd⟩ ⟨e, he⟩ h
  simpa using congrArg Fin.val this

lemma map_dchar_inj :
    ∀ L1 L2 : List Nat, (∀ d ∈ L1, d < 10) → (∀ d ∈ L2, d < 10) →
      L1.map dchar = L2.map dchar → L1 = L2 := by
  intro L1
  induction L1 with
  | nil => intro L2 _ _ h; cases L2 with
    | nil => rfl
    | cons b t => simp at h
  | cons a t ih =>
    intro L2 h1 h2 h
    cases L2 with
    | nil => simp at h
    | cons b t2 =>
      simp only [List.map_cons, List.cons.injEq] at h
      have ha : a = b :=
        dchar_lt_inj (h1 a (by simp)) (h2 b (by simp)) h.1
      have ht : t = t2 :=
        ih t2 (fun d hd => h1 d (by simp [hd])) (fun d hd => h2 d (by simp [hd])) h.2
      rw [ha, ht]

lemma natToDecAux_eq_digits :
    ∀ (fuel n : Nat) (acc : List Char), n ≠ 0 → n < 10 ^ fuel →
      natToDecAux fuel n acc = ((Nat.digits 10 n).map dchar).reverse ++ acc := by
  intro fuel
  induction fuel with
  | zero => intro n acc hn hlt; simp at hlt; omega
  | succ fuel ih =>
    intro n acc hn hlt
    by_cases h10 : n < 10
    · rw [natToDecAux, if_pos h10, Nat.digits_of_lt 10 n hn h10]
      simp
    · rw [natToDecAux, if_neg h10]
      have hdiv_ne : n / 10 ≠ 0 := by
        have : 10 ≤ n := Nat.le_of_not_lt h10
        have : 1 ≤ n / 10 := (Nat.one_le_div_iff (by norm_num)).2 this
        omega
      have hdiv_lt : n / 10 < 10 ^ fuel := by
        have h0 : (0:Nat) < 10 := by norm_num
        rw [Nat.div_lt_iff_lt_mul h0]
        calc n < 10 ^ (fuel + 1) := hlt
        _ = 10 ^ fuel * 10 := by ring
      rw [ih (n / 10) (dchar (n % 10) :: acc) hdiv_ne hdiv_lt]
      rw [Nat.digits_def' (by norm_num : (1:Nat) < 10) (Nat.pos_of_ne_zero hn)]
      simp

lemma natToDec_eq_digits (n : Nat) (hn : n ≠ 0) :
    natToDec n = ((Nat.digits 10 n).map dchar).reverse := by
  have hfuel : n < 10 ^ (n + 1) := by
    calc n < 10 ^ n := Nat.lt_pow_self (by norm_num) n
    _ ≤ 10 ^ (n + 1) := Nat.pow_le_pow_right (by norm_num) (Nat.le_succ n)
  simpa using natToDecAux_eq_digits (n + 1) n [] hn hfuel

lemma natToDec_ne_zero_digits (n : Nat) (hn : n ≠ 0) : natToDec n ≠ chars "0" := by
  intro h
  rw [natToDec_eq_digits n hn] at h
  have h' : (Nat.digits 10 n).map dchar = ['0'] := by
    have := congrArg List.reverse h
    simpa [chars] using this
  rcases hds : Nat.digits 10 n with _ | ⟨d, tl⟩
  · rw [hds] at h'; simp at h'
  · rw [hds] at h'
    simp only [List.map_cons, List.cons.injEq] at h'
    have htl : tl = [] := by
      have := h'.2
      cases tl with
      | nil => rfl
      | cons x xs => simp at this
    have hd10 : d < 10 :=
      Nat.digits_lt_base (b := 10) (m := n) (by norm_num) (by rw [hds]; simp)
    have hd0 : d = 0 := dchar_lt_inj hd10 (by norm_num) h'.1
    have h0 : Nat.digits 10 n = [0] := by rw [hds, htl, hd0]
    have hof := Nat.ofDigits_digits 10 n
    rw [h0] at hof
    simp [Nat.ofDigits] at hof
    exact hn hof.symm

lemma natToDec_inj {m n : Nat} (h : natToDec m = natToDec n) : m = n := by
  by_cases hm : m = 0 <;> by_cases hn : n = 0
  · omega
  · exfalso
    have hm0 : natToDec m = chars "0" := by rw [hm]; rfl
    exact natToDec_ne_zero_digits n hn (by rw [← h, hm0])
  · exfalso
    have hn0 : natToDec n = chars "0" := by rw [hn]; rfl
    exact natToDec_ne_zero_digits m hm (by rw [h, hn0])
  · rw [natToDec_eq_digits m hm, natToDec_eq_digits n hn] at h
    have hmaps : (Nat.digits 10 m).map dchar = (Nat.digits 10 n).map dchar :=
      List.reverse_injective h
    have hdig : Nat.digits 10 m = Nat.digits 10 n :=
      map_dchar_inj _ _ (fun d hd => Nat.digits_lt_base (by norm_num) hd)
        (fun d hd => Nat.digits_lt_base (by norm_num) hd) hmaps
    exact Nat.digits.injective 10 hdig

lemma requestId_inj {m n : Nat} (h : requestId m = requestId n) : m = n := by
  apply natToDec_inj
  have := h
  unfold requestId at this
  exact List.append_cancel_left this

end DecimalLemmas

/-- C7 counterexample: the claim "for any two generate calls, the request_id
strings produced differ" fails on the code. The request id is a pure function
of the wall-clock millisecond reading taken in the call and the wrapper keeps
no other per-request state, so two distinct `generate` calls whose readings
fall in the same millisecond (here 1700000000000, with different prompts and
parameters) hand `chat_completion` the identical request id
`"req_1700000000000"`. -/
theorem mlc_spec_c7_counterexample :
    (MLCEngineWrapper.generate ⟨chars "m", none, true⟩ (chars "hi") 64
        (chars "0.700000") (some ()) 1700000000000 ChatOutcome.ok).submitted.map Prod.snd =
      (MLCEngineWrapper.generate ⟨chars "m", none, true⟩ (chars "bye") 128
        (chars "0.800000") (some ()) 1700000000000 ChatOutcome.ok).submitted.map Prod.snd
    ∧ (MLCEngineWrapper.generate ⟨chars "m", none, true⟩ (chars "hi") 64
        (chars "0.700000") (some ()) 1700000000000 ChatOutcome.ok).submitted.map Prod.snd =
      some (chars "req_1700000000000") := by
  constructor <;> rfl

/-- C7 (amended): request ids are distinct whenever the wall-clock millisecond
readings taken by the two `generate` calls differ — the derivation
`"req_" + std::to_string(ms)` is injective in the reading. -/
theorem mlc_spec_c7_request_id_distinct (ms1 ms2 : Nat) (h : ms1 ≠ ms2) :
    requestId ms1 ≠ requestId ms2 :=
  fun heq => h (requestId_inj heq)

/-- C7 witness: two concrete distinct readings give distinct request ids. -/
theorem mlc_spec_c7_witness :
    (1700000000000 : Nat) ≠ 1700000000001
      ∧ requestId 1700000000000 ≠ requestId 1700000000001 :=
  ⟨by decide, mlc_spec_c7_request_id_distinct 1700000000000 1700000000001 (by decide)⟩

/-- C1: the claim says a fragment with exactly k non-empty content deltas
yields exactly k sink invocations, in encounter order, and that multiple
`content` keys yield multiple deltas. The code `processStreamResponse`
examines only the first match of `"content":"`: on the fragment
`{"content":"a","content":"b"}` — which carries exactly two content keys
with non-empty deltas "a" and "b" — it invokes the sink once, with "a"
only, not twice. -/
theorem mlc_spec_c1_code_bug :
    countSub contentPat (chars "\x7b\"content\":\"a\",\"content\":\"b\"\x7d") = 2
    ∧ processStreamResponse (some ())
        (chars "\x7b\"content\":\"a\",\"content\":\"b\"\x7d") = [chars "a"]
    ∧ [chars "a"] ≠ [chars "a", chars "b"] :=
  ⟨by decide, rfl, by decide⟩

/-- Supporting fact (not itself a claim): for a prompt needing no escaping
the request JSON the code builds does parse and round-trips the prompt, so
the C2 failure below is caused by the unescaped prompt alone. -/
lemma buildRequestJson_benign_roundtrip :
    (parseJsonDoc (buildRequestJson (chars "hello") 100 (chars "0.700000"))).bind
      firstMessageContent = some (chars "hello") := by rfl

/-- C2: the claim says that for any UTF-8 prompt without unescaped control
characters the request JSON built by `generate` is well-formed and decodes
with `messages[0].content` equal to the prompt. The code interpolates the
prompt into the JSON text with no escaping: for the prompt `a"b` — which
contains no control characters — the built request is not a well-formed JSON
document at all (the parser modelled from the spec rejects it). -/
theorem mlc_spec_c2_code_bug :
    noControlChars (chars "a\"b")
    ∧ (parseJsonDoc (buildRequestJson (chars "a\"b") 100 (chars "0.700000"))).isNone
        = true :=
  ⟨by decide, by rfl⟩

/-- C3: the claim says every delta yielded for a content field is the
JSON-unescaped value of that string. The code performs no unescaping: on the
fragment `{"content":"a\nb"}` (whose content string holds the two-character
escape `\n`) it forwards the raw characters `a`, `\`, `n`, `b` to the sink,
whereas the unescaped value required by the spec is `a`, newline, `b`. -/
theorem mlc_spec_c3_code_bug :
    processStreamResponse (some ()) (chars "\x7b\"content\":\"a\\nb\"\x7d")
        = [chars "a\\nb"]
    ∧ specJsonUnescape (chars "a\\nb") = chars "a\nb"
    ∧ chars "a\\nb" ≠ chars "a\nb" :=
  ⟨rfl, rfl, by decide⟩

/-- C4: the C-ABI generate returns −1 exactly when the handle is null, the
prompt is null, or the wrapper is uninitialized; on an initialized wrapper it
returns −2 exactly when `chat_completion` reports failure or throws, querying
`get_last_error` exactly in the reported-failure case, and returns 0 once
`chat_completion` accepts. -/
theorem mlc_spec_c4_generate_return_codes (engine : Option MLCEngineWrapper)
    (prompt : Option (List Char)) (max_tokens : Int) (tempStr : List Char)
    (callback : Option Unit) (ms : Nat) (outcome : ChatOutcome) :
    ((mlc_llm_generate engine prompt max_tokens tempStr callback ms outcome).ret = -1
        ↔ engine = none ∨ prompt = none
          ∨ ∃ w, engine = some w ∧ w.is_initialized_ = false)
    ∧ (∀ w p, engine = some w → prompt = some p → w.is_initialized_ = true →
        (((mlc_llm_generate engine prompt max_tokens tempStr callback ms outcome).ret = -2
            ↔ outcome ≠ ChatOutcome.ok)
          ∧ ((mlc_llm_generate engine prompt max_tokens tempStr callback ms
                outcome).gotLastError = true
              ↔ ∃ e, outcome = ChatOutcome.rejected e)
          ∧ (outcome = ChatOutcome.ok →
              (mlc_llm_generate engine prompt max_tokens tempStr callback ms
                outcome).ret = 0))) := by
  constructor
  · cases engine with
    | none => simp [mlc_llm_generate]
    | some w =>
      cases prompt with
      | none => simp [mlc_llm_generate]
      | some p =>
        by_cases hw : w.is_initialized_ = false
        · simp [mlc_llm_generate, MLCEngineWrapper.generate, hw]
        · cases outcome <;>
            simp [mlc_llm_generate, MLCEngineWrapper.generate, hw]
  · intro w p hw hp hinit
    subst hw; subst hp
    have hne : ¬ w.is_initialized_ = false := by rw [hinit]; decide
    cases outcome <;>
      simp [mlc_llm_generate, MLCEngineWrapper.generate, hne]

/-- C4 witness: a rejected `chat_completion` on an initialized wrapper makes
the concrete call return −2 with `get_last_error` queried. -/
theorem mlc_spec_c4_witness :
    (mlc_llm_generate (some ⟨chars "m", none, true⟩) (some (chars "q")) 64
        (chars "0.700000") (some ()) 5 (ChatOutcome.rejected (chars "bad"))).ret = -2
    ∧ (mlc_llm_generate (some ⟨chars "m", none, true⟩) (some (chars "q")) 64
        (chars "0.700000") (some ()) 5
        (ChatOutcome.rejected (chars "bad"))).gotLastError = true := by
  have h := (mlc_spec_c4_generate_return_codes (some ⟨chars "m", none, true⟩)
    (some (chars "q")) 64 (chars "0.700000") (some ()) 5
    (ChatOutcome.rejected (chars "bad"))).2 ⟨chars "m", none, true⟩ (chars "q")
    rfl rfl rfl
  exact ⟨h.1.mpr (fun hc => ChatOutcome.noConfusion hc), h.2.1.mpr ⟨chars "bad", rfl⟩⟩

/-- C5: `mlc_llm_create_engine` returns a non-null handle exactly when every
construction step succeeded (factory found, `init_background_engine` and
`reload` accepted); every wrapper behind a returned handle has
`is_initialized_ = true` and none of its `generate` calls can return −1 (the
uninitialized-reason code at wrapper level). -/
theorem mlc_spec_c5_create_engine (model_path : List Char) (env : CtorEnv) :
    ((mlc_llm_create_engine model_path env).isSome
        ↔ env.factoryPresent = true ∧ env.initBgOk = true ∧ env.reloadOk = true)
    ∧ (∀ w, mlc_llm_create_engine model_path env = some w →
        w.is_initialized_ = true
        ∧ ∀ prompt max_tokens tempStr callback ms outcome,
            (w.generate prompt max_tokens tempStr callback ms outcome).ret ≠ -1) := by
  constructor
  · by_cases hf : env.factoryPresent <;> by_cases hi : env.initBgOk <;>
      by_cases hr : env.reloadOk <;>
      simp [mlc_llm_create_engine, MLCEngineWrapper.construct, hf, hi, hr]
  · intro w hw
    have hinit : w.is_initialized_ = true := by
      unfold mlc_llm_create_engine at hw
      by_cases h : (MLCEngineWrapper.construct model_path env).is_initialized_
      · rw [if_pos h] at hw
        cases hw
        exact h
      · rw [if_neg h] at hw
        cases hw
    refine ⟨hinit, ?_⟩
    intro prompt max_tokens tempStr callback ms outcome
    have hne : ¬ w.is_initialized_ = false := by rw [hinit]; decide
    cases outcome <;>
      simp [MLCEngineWrapper.generate, hne]

/-- C5 witness: with all construction steps succeeding, the concrete handle
is non-null and a concrete generate call on its wrapper does not return −1. -/
theorem mlc_spec_c5_witness :
    (mlc_llm_create_engine (chars "p") ⟨true, true, true⟩).isSome = true
    ∧ (MLCEngineWrapper.generate ⟨chars "p", none, true⟩ (chars "q") 64
        (chars "0.700000") (some ()) 5 ChatOutcome.ok).ret ≠ -1 := by
  have h := mlc_spec_c5_create_engine (chars "p") ⟨true, true, true⟩
  exact ⟨by simpa using h.1.mpr ⟨rfl, rfl, rfl⟩,
    (h.2 ⟨chars "p", none, true⟩ rfl).2 (chars "q") 64 (chars "0.700000")
      (some ()) 5 ChatOutcome.ok⟩

/-- C6: a fragment in which the pattern `"content":"` never occurs (in
particular any fragment with no content field), or whose first content value
is the empty string, produces no token-sink invocation. -/
theorem mlc_spec_c6_no_content_no_sink (token_callback_ : Option Unit) (s : List Char)
    (h : findSub contentPat s = none ∨ extractFirstContent s = some []) :
    processStreamResponse token_callback_ s = [] := by
  cases token_callback_ with
  | none => rfl
  | some u =>
    cases h with
    | inl h => simp [processStreamResponse, h]
    | inr h =>
      unfold extractFirstContent at h
      cases hf : findSub contentPat s with
      | none => simp [processStreamResponse, hf]
      | some pos =>
        rw [hf] at h
        cases hfc : findCharFrom '"' s (pos + 11) with
        | none => simp [processStreamResponse, hf, hfc]
        | some e =>
          simp only [hfc, Option.some.injEq] at h
          simp [processStreamResponse, hf, hfc, h]

/-- C6 witness: a concrete fragment with no content field produces no sink
invocation. -/
theorem mlc_spec_c6_witness :
    (findSub contentPat (chars "\x7b\"x\":1\x7d") = none
        ∨ extractFirstContent (chars "\x7b\"x\":1\x7d") = some [])
    ∧ processStreamResponse (some ()) (chars "\x7b\"x\":1\x7d") = [] :=
  ⟨Or.inl (by decide),
    mlc_spec_c6_no_content_no_sink (some ()) (chars "\x7b\"x\":1\x7d")
      (Or.inl (by decide))⟩

/-- C8: `mlc_llm_destroy_engine` on a null handle returns cleanly having
destroyed nothing, requested no background-loop exit, and invoked no
callback. -/
theorem mlc_spec_c8_destroy_null_noop :
    mlc_llm_destroy_engine none =
      { destroyedEngine := false, exitLoopRequested := false, sinkCalls := [] } := rfl

/-- C9: on an initialized wrapper, `generate` performs no validation of
`max_tokens` or `temperature`: for every integer and every rendered float it
hands `chat_completion` the request JSON with both rendered values
interpolated verbatim, and its return code is a function of the
`chat_completion` outcome alone. -/
theorem mlc_spec_c9_no_param_validation (w : MLCEngineWrapper) (prompt : List Char)
    (max_tokens : Int) (tempStr : List Char) (callback : Option Unit) (ms : Nat)
    (outcome : ChatOutcome) (h : w.is_initialized_ = true) :
    (w.generate prompt max_tokens tempStr callback ms outcome).submitted
        = some (buildRequestJson prompt max_tokens tempStr, requestId ms)
    ∧ (∃ A B C, buildRequestJson prompt max_tokens tempStr
        = A ++ intToDec max_tokens ++ B ++ tempStr ++ C)
    ∧ (w.generate prompt max_tokens tempStr callback ms outcome).ret = chatRet outcome := by
  have hne : ¬ w.is_initialized_ = false := by rw [h]; decide
  refine ⟨?_, ⟨reqPartA ++ prompt ++ reqPartB, reqPartC, reqPartD, ?_⟩, ?_⟩
  · cases outcome <;> simp [MLCEngineWrapper.generate, hne]
  · simp [buildRequestJson, List.append_assoc]
  · cases outcome <;> simp [MLCEngineWrapper.generate, chatRet, hne]

/-- C9 witness: a negative `max_tokens` and a negative rendered temperature
are submitted unvalidated by a concrete initialized wrapper, with the return
code given by the outcome alone. -/
theorem mlc_spec_c9_witness :
    (MLCEngineWrapper.generate ⟨chars "m", none, true⟩ (chars "q") (-7)
        (chars "-1.000000") none 5 ChatOutcome.ok).submitted
      = some (buildRequestJson (chars "q") (-7) (chars "-1.000000"), requestId 5)
    ∧ (MLCEngineWrapper.generate ⟨chars "m", none, true⟩ (chars "q") (-7)
        (chars "-1.000000") none 5 ChatOutcome.ok).ret = chatRet ChatOutcome.ok := by
  have h := mlc_spec_c9_no_param_validation ⟨chars "m", none, true⟩ (chars "q") (-7)
    (chars "-1.000000") none 5 ChatOutcome.ok rfl
  exact ⟨h.1, h.2.2⟩

/-- C10: the stream handler invokes nothing when no token sink is stored: a
freshly constructed wrapper stores no sink, a `generate` call that stored a
null callback leaves no sink, and the handler returns immediately (no
invocation) whenever the stored sink is null. -/
theorem mlc_spec_c10_null_sink_safe (s : List Char) :
    processStreamResponse none s = []
    ∧ (∀ model_path env,
        (MLCEngineWrapper.construct model_path env).token_callback_ = none)
    ∧ (∀ (w : MLCEngineWrapper) prompt max_tokens tempStr ms outcome,
        w.is_initialized_ = true →
          (w.generate prompt max_tokens tempStr none ms outcome).token_callback_
            = none) := by
  refine ⟨rfl, fun _ _ => rfl, ?_⟩
  intro w prompt max_tokens tempStr ms outcome h
  have hne : ¬ w.is_initialized_ = false := by rw [h]; decide
  cases outcome <;> simp [MLCEngineWrapper.generate, hne]

/-- C10 witness: a fragment carrying a content delta arriving with no stored
sink produces no invocation, and a concrete generate call that stores a null
callback (overwriting a previously stored sink) leaves no sink. -/
theorem mlc_spec_c10_witness :
    processStreamResponse none (chars "\x7b\"content\":\"a\"\x7d") = []
    ∧ (MLCEngineWrapper.generate ⟨chars "m", some (), true⟩ (chars "q") 64
        (chars "0.700000") none 5 ChatOutcome.ok).token_callback_ = none :=
  ⟨(mlc_spec_c10_null_sink_safe (chars "\x7b\"content\":\"a\"\x7d")).1,
    (mlc_spec_c10_null_sink_safe (chars "x")).2.2 ⟨chars "m", some (), true⟩
      (chars "q") 64 (chars "0.700000") 5 ChatOutcome.ok rfl⟩

/-- Sanity check on the spec-modelled parser: it accepts every JSON value
kind, decodes string escapes, and tolerates whitespace. -/
lemma parseJsonDoc_accepts_values :
    parseJsonDoc (chars "  [1, \"a\\n\", true, \x7b\"k\": -2.5e3\x7d, null] ") =
      some (Json.arr [Json.num (chars "1"), Json.str (chars "a\n"), Json.bool true,
        Json.obj [(chars "k", Json.num (chars "-2.5e3"))], Json.null]) := by rfl

/-- Sanity check on the spec-modelled parser: a truncated object and an
object with a stray quote inside a member value are rejected. -/
lemma parseJsonDoc_rejects_malformed :
    parseJsonDoc (chars "\x7b\"a\":1") = none
    ∧ parseJsonDoc (chars "\x7b\"a\": \"x\"b\"\x7d") = none := ⟨by rfl, by rfl⟩

/-- Sanity check on the embedded extractor and decimal rendering: a single
well-formed fragment yields its delta, and `std::to_string` values render as
expected. -/
lemma embedding_sanity :
    processStreamResponse (some ()) (chars "\x7b\"content\":\"hi\"\x7d") = [chars "hi"]
    ∧ natToDec 0 = chars "0"
    ∧ natToDec 1700000000000 = chars "1700000000000"
    ∧ intToDec (-35) = chars "-35"
    ∧ requestId 12 = chars "req_12"
    ∧ specJsonUnescape (chars "x\\u0041y") = chars "xAy" := by
  refine ⟨by decide, by decide, by decide, by decide, by decide, by rfl⟩
